import Mathlib

/-!
Verification of the barcode scanner core (barcode_scanner.py): HID report
decoding, keystroke debouncing, barcode buffer assembly, the USB read loop,
mode dispatch and settings loading, embedded shallowly as Lean functions.
-/

set_option maxRecDepth 4096

/-- HID scancode to character table (US keyboard layout), from the source
dictionary HID_CHARS.  The entries for quote and backtick are written with
Char.ofNat (codes 39 and 96). -/
def HID_CHARS : List (Nat × Char) :=
  [ (0x28, '\n'),
    (0x2C, ' '),
    (0x2D, '-'),
    (0x2E, '='),
    (0x2F, '['),
    (0x30, ']'),
    (0x31, '\\'),
    (0x33, ';'),
    (0x34, Char.ofNat 39),
    (0x35, Char.ofNat 96),
    (0x36, ','),
    (0x37, '.'),
    (0x38, '/') ]

/-- Shifted variants, from the source dictionary HID_SHIFT_CHARS.  The entries
for double quote, left brace and right brace are written with Char.ofNat
(codes 34, 123 and 125). -/
def HID_SHIFT_CHARS : List (Nat × Char) :=
  [ (0x1E, '!'), (0x1F, '@'), (0x20, '#'), (0x21, '$'), (0x22, '%'),
    (0x23, '^'), (0x24, '&'), (0x25, '*'), (0x26, '('), (0x27, ')'),
    (0x2D, '_'), (0x2E, '+'), (0x2F, Char.ofNat 123), (0x30, Char.ofNat 125),
    (0x31, '|'), (0x33, ':'), (0x34, Char.ofNat 34), (0x35, '~'),
    (0x36, '<'), (0x37, '>'), (0x38, '?') ]

/-- Decode one HID usage code with a shift flag to a character (Enter is the
newline character), from the source function hid_to_char.  Unmapped codes
yield none. -/
def hid_to_char (code : Nat) (shift : Bool) : Option Char :=
  if 0x04 ≤ code ∧ code ≤ 0x1D then
    let c := Char.ofNat (code - 0x04 + Char.toNat 'a')
    some (if shift then c.toUpper else c)
  else if 0x1E ≤ code ∧ code ≤ 0x27 then
    if shift then HID_SHIFT_CHARS.lookup code
    else if code ≤ 0x26 then some (Char.ofNat (code - 0x1D + Char.toNat '0'))
    else some '0'
  else if shift && (HID_SHIFT_CHARS.lookup code).isSome then
    HID_SHIFT_CHARS.lookup code
  else HID_CHARS.lookup code

/-- A code is covered by the decoder when it falls in the letter or digit
range or appears in one of the two symbol tables. -/
def definedCode (code : Nat) : Bool :=
  (decide (0x04 ≤ code) && decide (code ≤ 0x27))
    || (HID_CHARS.lookup code).isSome
    || (HID_SHIFT_CHARS.lookup code).isSome

/-- State of the USBBarcodeScanner relevant to report processing: the
accumulating barcode buffer and the pressed-key set of the previous report. -/
structure ScannerState where
  buffer : String
  prev_keys : Finset Nat
deriving DecidableEq

/-- The debouncing step of _process_data: from the list of key codes of the
current report and the previous pressed-key set, the newly pressed keys
(the set difference) in ascending order.  The source builds a set from the
report bytes, subtracts the previous set and sorts; dedup plus filter plus
insertion sort computes the same sorted set difference. -/
def debounce (current : List Nat) (previous : Finset Nat) : List Nat :=
  List.insertionSort (· ≤ ·) (current.dedup.filter (fun k => decide (k ∉ previous)))

/-- One iteration of the per-key loop body of _process_data.  The
accumulator is the pair of the buffer and the barcodes emitted so far:
Enter on a non-empty buffer emits it and clears it, Enter on an empty
buffer does nothing, a decoded character is appended, an unmapped key is
ignored. -/
def process_key (shift : Bool) (acc : String × List String) (key : Nat) :
    String × List String :=
  match hid_to_char key shift with
  | some c =>
      if c = '\n' then
        if acc.1 ≠ "" then ("", acc.2 ++ [acc.1]) else acc
      else (acc.1.push c, acc.2)
  | none => acc

/-- The source function _process_data: reports shorter than 3 bytes are
ignored; byte 0 gives the shift flag (mask 0x22); bytes 2 to 7 give the
pressed keys; new keys are processed in ascending order.  Returns the
updated state and the emitted barcodes. -/
def process_data (s : ScannerState) (data : List Nat) :
    ScannerState × List String :=
  if data.length < 3 then (s, [])
  else
    let shift := (data.getD 0 0 &&& 0x22) != 0
    let current : List Nat := ((data.take 8).drop 2).filter (fun b => b != 0)
    let r := (debounce current s.prev_keys).foldl (process_key shift) (s.buffer, [])
    ({ buffer := r.1, prev_keys := current.toFinset }, r.2)

/-- Feeds a sequence of timestamped reports through _process_data,
collecting every emitted barcode.  The source keeps no clock and
_process_data takes no time parameter, so the timestamp component of each
pair is discarded. -/
def process_reports_timed (s : ScannerState) (reports : List (List Nat × Nat)) :
    ScannerState × List String :=
  reports.foldl (fun acc r =>
    let p := process_data acc.1 r.1
    (p.1, acc.2 ++ p.2)) (s, [])

/-- Outcome of one endpoint read in read_loop: either a data packet or a
USBError carrying the platform error number (10060 is the Windows read
timeout). -/
inductive ReadResult where
  | data (d : List Nat)
  | usbError (errno : Int)
deriving DecidableEq

/-- Observable effects of one read_loop iteration: a status callback, a
read attempt on the endpoint, the two second backoff sleep, or an emitted
barcode handed to the barcode callback. -/
inductive Event where
  | status (connected : Bool)
  | read_attempt
  | sleep_backoff
  | emit (barcode : String)
deriving DecidableEq

/-- State carried across read_loop iterations: whether the device handle is
held (device is not None), plus the scanner buffer and previous key set.
disconnect() clears only the handle, never the buffer. -/
structure LoopState where
  device_connected : Bool
  buffer : String
  prev_keys : Finset Nat
deriving DecidableEq

/-- The read phase of one read_loop iteration, entered once a device handle
is held: on data, the report is processed; on USBError 10060 (the Windows
timeout) the loop continues at once; on any other USBError the device is
disconnected, the Disconnected status is reported and the backoff sleep
runs. -/
def read_phase (s : LoopState) (evs : List Event) (r : ReadResult) :
    LoopState × List Event :=
  match r with
  | ReadResult.data d =>
      let p := process_data ⟨s.buffer, s.prev_keys⟩ d
      ({ device_connected := s.device_connected,
         buffer := p.1.buffer, prev_keys := p.1.prev_keys },
       evs ++ [Event.read_attempt] ++ p.2.map Event.emit)
  | ReadResult.usbError errno =>
      if errno = 10060 then (s, evs ++ [Event.read_attempt])
      else ({ device_connected := false,
              buffer := s.buffer, prev_keys := s.prev_keys },
            evs ++ [Event.read_attempt, Event.status false, Event.sleep_backoff])

/-- One iteration of USBBarcodeScanner.read_loop.  When no device handle is
held the iteration first attempts connect(): on failure it reports the
Disconnected status and sleeps the backoff; on success it reports the
Connected status and proceeds to the read phase of the same iteration.
connect_ok is the outcome the environment gives that connect() call, r the
outcome of the endpoint read. -/
def read_loop_iter (s : LoopState) (connect_ok : Bool) (r : ReadResult) :
    LoopState × List Event :=
  if s.device_connected then read_phase s [] r
  else if connect_ok then
    read_phase { device_connected := true,
                 buffer := s.buffer, prev_keys := s.prev_keys }
      [Event.status true] r
  else (s, [Event.status false, Event.sleep_backoff])

/-- State of the App relevant to dispatch: the enabled flag (true = URL
mode, false = keyboard passthrough). -/
structure AppState where
  enabled : Bool
deriving DecidableEq

/-- Effects the App can trigger while dispatching: persisting the settings,
the mode change notification (console line plus tray icon update), opening
the URL built from the barcode, or typing the barcode. -/
inductive DispatchAction where
  | save_settings (enabled : Bool)
  | notify
  | open_url (barcode : String)
  | passthrough (barcode : String)
deriving DecidableEq

/-- The source method App.set_mode: only when the requested flag differs
from the current one is the new value stored, persisted and announced. -/
def set_mode (s : AppState) (enabled : Bool) : AppState × List DispatchAction :=
  if s.enabled ≠ enabled then
    ({ enabled := enabled }, [DispatchAction.save_settings enabled, DispatchAction.notify])
  else (s, [])

/-- An action is visible when it opens a URL or injects keystrokes. -/
def visible_action : DispatchAction → Bool
  | DispatchAction.open_url _ => true
  | DispatchAction.passthrough _ => true
  | _ => false

/-- The source method App.handle_barcode: the two reserved command payloads
switch the mode and return; otherwise the foreground window title may force
a mode, and the barcode is dispatched according to the resulting mode. -/
def handle_barcode (s : AppState) (window_title : String) (barcode : String) :
    AppState × List DispatchAction :=
  if barcode = "[COMMAND] Keyboard" then set_mode s false
  else if barcode = "[COMMAND] Link" then set_mode s true
  else
    let m :=
      if window_title = "ScanPark - Google Chrome"
          ∨ window_title = "Page 1 | Create Courier Ticket - Google Chrome" then
        set_mode s false
      else if window_title = "Case Search Results - Google Chrome"
          ∨ window_title = "Case Flow - Google Chrome" then
        set_mode s true
      else (s, [])
    if m.1.enabled then (m.1, m.2 ++ [DispatchAction.open_url barcode])
    else (m.1, m.2 ++ [DispatchAction.passthrough barcode])

/-- The settings dictionary: the one recognized key, enabled. -/
structure SettingsDict where
  enabled : Bool
deriving DecidableEq

/-- What reading and parsing the settings file can yield: the file is
missing, its contents are not valid JSON, or a parsed settings object. -/
inductive SettingsReadResult where
  | file_not_found
  | json_decode_error
  | ok (settings : SettingsDict)
deriving DecidableEq

/-- The source function load_settings: a missing file or a JSON decode
failure falls back to the default (enabled false, keyboard mode); no error
escapes to the caller. -/
def load_settings : SettingsReadResult → SettingsDict
  | SettingsReadResult.ok s => s
  | SettingsReadResult.file_not_found => { enabled := false }
  | SettingsReadResult.json_decode_error => { enabled := false }

/-- Claim C1, counterexample: feeding the reports for shifted A, B, C at
times 0, 50 and 200 ms and then Enter through _process_data emits the single
barcode ABC, not C: the source discards nothing on an inter-keystroke gap,
since it keeps no keystroke timestamps at all. -/
theorem spec_C1_counterexample :
    (process_reports_timed ⟨"", ∅⟩
      [([0x02, 0, 0x04, 0, 0, 0, 0, 0], 0),
       ([0x02, 0, 0x05, 0, 0, 0, 0, 0], 50),
       ([0x02, 0, 0x06, 0, 0, 0, 0, 0], 200),
       ([0x00, 0, 0x28, 0, 0, 0, 0, 0], 250)]).2 = ["ABC"]
    ∧ (["ABC"] : List String) ≠ ["C"] := by
  constructor
  · rfl
  · decide

/-- Claim C1, amended: the assembler keeps no keystroke timestamps and never
discards the buffer on an idle gap; feeding A, B, C and then Enter emits
exactly ABC at every choice of arrival times. -/
theorem spec_C1_amended (t1 t2 t3 t4 : Nat) :
    (process_reports_timed ⟨"", ∅⟩
      [([0x02, 0, 0x04, 0, 0, 0, 0, 0], t1),
       ([0x02, 0, 0x05, 0, 0, 0, 0, 0], t2),
       ([0x02, 0, 0x06, 0, 0, 0, 0, 0], t3),
       ([0x00, 0, 0x28, 0, 0, 0, 0, 0], t4)]).2 = ["ABC"] := by
  simp only [process_reports_timed, List.foldl]
  rfl

/-- Claim C2, counterexample: the space code 0x2C has no entry in
HID_SHIFT_CHARS, so its shifted decoding equals its unshifted decoding;
the shifted variant is not distinct for space. -/
theorem spec_C2_counterexample :
    hid_to_char 0x2C true = some ' ' ∧ hid_to_char 0x2C false = some ' ' := by
  decide

/-- Claim C2, amended: for every symbol-table code except space (hyphen,
equals, the brackets, backslash, semicolon, quote, backtick, comma, period,
slash) decoding with shift true differs from decoding with shift false;
space decodes to the same character under both shift values. -/
theorem spec_C2_amended :
    (([0x2D, 0x2E, 0x2F, 0x30, 0x31, 0x33, 0x34, 0x35, 0x36, 0x37, 0x38] :
        List Nat).all fun c => hid_to_char c true != hid_to_char c false) = true
    ∧ hid_to_char 0x2C true = hid_to_char 0x2C false := by
  decide

/-- Claim C3: for every report key list and previous pressed-key set,
debounce yields exactly the codes of the set difference, in ascending
order, without duplicates. -/
theorem spec_C3 (current : List Nat) (previous : Finset Nat) :
    (∀ k, k ∈ debounce current previous ↔ k ∈ current ∧ k ∉ previous)
    ∧ (debounce current previous).Sorted (· ≤ ·)
    ∧ (debounce current previous).Nodup := by
  refine ⟨?_, ?_, ?_⟩
  · intro k
    unfold debounce
    rw [(List.perm_insertionSort _ _).mem_iff]
    simp [List.mem_filter, List.mem_dedup]
  · exact List.sorted_insertionSort _ _
  · exact ((List.perm_insertionSort _ _).nodup_iff).mpr
      ((current.nodup_dedup).filter _)

/-- Claim C4: every code in the letter range 0x04 to 0x1D decodes to the
corresponding lowercase letter without shift and to its uppercase form with
shift, and every 8-bit code outside all defined ranges decodes to none for
both shift values. -/
theorem spec_C4 :
    (∀ code : Nat, code < 0x1E → 0x04 ≤ code →
      hid_to_char code false = some (Char.ofNat (code - 0x04 + Char.toNat 'a'))
      ∧ hid_to_char code true = some (Char.ofNat (code - 0x04 + Char.toNat 'A')))
    ∧ (∀ code : Nat, code < 256 → definedCode code = false →
      ∀ shift : Bool, hid_to_char code shift = none) := by
  decide

/-- Claim C4, witness: code 0x05 decodes to letters b and B, and the
unmapped code 0x32 decodes to none. -/
theorem spec_C4_witness :
    hid_to_char 0x05 false = some 'b' ∧ hid_to_char 0x05 true = some 'B'
    ∧ hid_to_char 0x32 true = none := by
  have h1 := spec_C4.1 0x05 (by decide) (by decide)
  have h2 := spec_C4.2 0x32 (by decide) (by decide) true
  exact ⟨h1.1.trans (by decide), h1.2.trans (by decide), h2⟩

/-- Claim C5: in the read loop, a non-benign USB error while connected
disconnects the session and reports the Disconnected status; the benign
timeout (errno 10060) retries at once with no state change and no backoff;
from a disconnected state a read is attempted only when the fresh connect
call succeeded; and a failed connect leaves the state unchanged with only
the Disconnected report and the backoff. -/
theorem spec_C5 (s : LoopState) (c : Bool) (r : ReadResult) (e : Int) :
    (s.device_connected = true → r = ReadResult.usbError e → e ≠ 10060 →
      (read_loop_iter s c r).1.device_connected = false
      ∧ Event.status false ∈ (read_loop_iter s c r).2)
    ∧ (s.device_connected = true → r = ReadResult.usbError 10060 →
      read_loop_iter s c r = (s, [Event.read_attempt]))
    ∧ (s.device_connected = false → Event.read_attempt ∈ (read_loop_iter s c r).2 →
      c = true)
    ∧ (s.device_connected = false → c = false →
      read_loop_iter s c r = (s, [Event.status false, Event.sleep_backoff])) := by
  refine ⟨?_, ?_, ?_, ?_⟩
  · rintro hconn rfl hne
    simp [read_loop_iter, hconn, read_phase, hne]
  · rintro hconn rfl
    simp [read_loop_iter, hconn, read_phase]
  · intro hdis hmem
    cases hc : c
    · rw [hc] at hmem
      simp [read_loop_iter, hdis] at hmem
    · rfl
  · intro hdis hc
    simp [read_loop_iter, hdis, hc]

/-- Claim C5, witness: concrete instances of the four conjuncts, at an
error read with errno 5, a timeout read, a successful reconnect followed by
a read of an empty packet, and a failed connect. -/
theorem spec_C5_witness :
    ((read_loop_iter ⟨true, "", ∅⟩ false (ReadResult.usbError 5)).1.device_connected = false
      ∧ Event.status false ∈ (read_loop_iter ⟨true, "", ∅⟩ false (ReadResult.usbError 5)).2)
    ∧ read_loop_iter ⟨true, "", ∅⟩ false (ReadResult.usbError 10060)
        = (⟨true, "", ∅⟩, [Event.read_attempt])
    ∧ (true = true)
    ∧ read_loop_iter ⟨false, "", ∅⟩ false (ReadResult.usbError 5)
        = (⟨false, "", ∅⟩, [Event.status false, Event.sleep_backoff]) :=
  ⟨(spec_C5 ⟨true, "", ∅⟩ false (ReadResult.usbError 5) 5).1 rfl rfl (by decide),
   (spec_C5 ⟨true, "", ∅⟩ false (ReadResult.usbError 10060) 10060).2.1 rfl rfl,
   (spec_C5 ⟨false, "", ∅⟩ true (ReadResult.data []) 0).2.2.1 rfl (by decide),
   (spec_C5 ⟨false, "", ∅⟩ false (ReadResult.usbError 5) 5).2.2.2 rfl rfl⟩

/-- Claim C6: dispatching the reserved keyboard-mode command payload sets
the mode to keyboard passthrough (enabled false) and triggers no URL-open
and no keystroke action; likewise the link-mode command payload sets URL
mode with no visible action. -/
theorem spec_C6 (s : AppState) (w : String) :
    (handle_barcode s w "[COMMAND] Keyboard").1.enabled = false
    ∧ ((handle_barcode s w "[COMMAND] Keyboard").2.all
        fun a => !visible_action a) = true
    ∧ (handle_barcode s w "[COMMAND] Link").1.enabled = true
    ∧ ((handle_barcode s w "[COMMAND] Link").2.all
        fun a => !visible_action a) = true := by
  obtain ⟨e⟩ := s
  cases e <;> simp [handle_barcode, set_mode, visible_action]

/-- Claim C7: set_mode is idempotent; requesting the mode already current
performs no persistence write, raises no notification and leaves the state
unchanged. -/
theorem spec_C7 (s : AppState) (m : Bool) (h : s.enabled = m) :
    set_mode s m = (s, []) := by
  simp [set_mode, h]

/-- Claim C7, witness: setting keyboard mode while already in keyboard mode
does nothing. -/
theorem spec_C7_witness : set_mode ⟨false⟩ false = (⟨false⟩, []) :=
  spec_C7 ⟨false⟩ false rfl

/-- Claim C8: when the settings file is missing or its contents are not
valid JSON, load_settings returns the default keyboard-passthrough
settings (enabled false), raising nothing: the function is total. -/
theorem spec_C8 (r : SettingsReadResult)
    (h : r = SettingsReadResult.file_not_found
      ∨ r = SettingsReadResult.json_decode_error) :
    load_settings r = { enabled := false } := by
  rcases h with rfl | rfl <;> rfl

/-- Claim C8, witness: a missing settings file loads the defaults. -/
theorem spec_C8_witness :
    load_settings SettingsReadResult.file_not_found = { enabled := false } :=
  spec_C8 SettingsReadResult.file_not_found (Or.inl rfl)

/-- Claim C9: feeding Enter to an empty buffer is a no-op: at the key level
the loop body leaves the accumulator unchanged, and a whole report whose
only key is Enter leaves an empty buffer empty and emits nothing, for every
modifier byte and every previous key set. -/
theorem spec_C9 (shift : Bool) (emitted : List String) (m : Nat) (prev : Finset Nat) :
    process_key shift ("", emitted) 0x28 = ("", emitted)
    ∧ (process_data ⟨"", prev⟩ [m, 0, 0x28, 0, 0, 0, 0, 0]).1.buffer = ""
    ∧ (process_data ⟨"", prev⟩ [m, 0, 0x28, 0, 0, 0, 0, 0]).2 = [] := by
  have hk : ∀ sh : Bool, process_key sh ("", ([] : List String)) 0x28 = ("", []) := by
    intro sh; cases sh <;> rfl
  refine ⟨by cases shift <;> rfl, ?_⟩
  by_cases h40 : (0x28 : Nat) ∈ prev
  · have hd : debounce [0x28] prev = [] := by
      simp [debounce, h40]
    constructor <;> simp [process_data, hd]
  · have hd : debounce [0x28] prev = [0x28] := by
      simp [debounce, h40]
    constructor <;> simp [process_data, hd, hk]

/-- Claim C10: a report shorter than 3 bytes is ignored: _process_data
returns the state unchanged, decodes nothing and emits nothing. -/
theorem spec_C10 (s : ScannerState) (data : List Nat) (h : data.length < 3) :
    process_data s data = (s, []) := by
  simp [process_data, h]

/-- Claim C10, witness: a one-byte report leaves the initial state
untouched. -/
theorem spec_C10_witness : process_data ⟨"", ∅⟩ [0] = (⟨"", ∅⟩, []) :=
  spec_C10 ⟨"", ∅⟩ [0] (by decide)
